import Mathlib

/-!
Verification of the ToolVerse analytics services.

This file gives a shallow embedding of the two analytics services of the
repository (`src/analytics-service/main.py` and `src/analytics-service/app.py`)
and proves or refutes the specification claims about them.

Conventions:
* Python lists become `List`, dicts become association lists or structures.
* Machine time is modelled as `Int` seconds; Python `float` money/rate values
  are modelled exactly as `ℚ`.
* Python exceptions are modelled with an explicit failure oracle: a `Bool`
  per step saying whether that step raises, with the `try`/`except` nesting
  of the source reproduced in the control flow.
-/

namespace ToolVerse

/-- Last `n` elements of a list, i.e. Python `l[-n:]` (the whole list when
`l.length ≤ n`). -/
def lastN (n : Nat) (l : List α) : List α :=
  l.drop (l.length - n)

namespace MainService

/-- Model of the `AnalyticsEvent` pydantic model (src/analytics-service/main.py,
class `AnalyticsEvent`).  `hour` is the hour-of-day of the event timestamp,
the only component of the timestamp read by the insight grouping; the opaque
`data` payload is carried as an association list. -/
structure AnalyticsEvent where
  event_type : String
  user_id : String
  organization_id : String
  tool_id : Option String
  hour : Nat
  data : List (String × String)
deriving DecidableEq, Repr

/-- An anomaly record produced by `AnalyticsProcessor._detect_anomalies`.
The `high_api_usage` dict carries a `user_id` key and the `error_spike`
dict does not; the absent key is modelled as `none`. -/
structure Anomaly where
  type : String
  user_id : Option String
  count : Nat
  severity : String
deriving DecidableEq, Repr

/-- The `recent_calls` expression of `_detect_anomalies`
(src/analytics-service/main.py lines 205-207): the number of `api_call`
events by user `uid` among the last 50 buffered events. -/
def recentApiCallsByUser (data_buffer : List AnalyticsEvent) (uid : String) : Nat :=
  ((lastN 50 data_buffer).filter
    (fun e => e.event_type == "api_call" && e.user_id == uid)).length

/-- The `recent_errors` expression of `_detect_anomalies`
(src/analytics-service/main.py lines 219-220): the number of `error`
events among the last 20 buffered events. -/
def recentErrors (data_buffer : List AnalyticsEvent) : Nat :=
  ((lastN 20 data_buffer).filter (fun e => e.event_type == "error")).length

/-- Model of `AnalyticsProcessor._detect_anomalies`
(src/analytics-service/main.py lines 197-233).  `data_buffer` is the
processor's buffer at call time; `process_event` appends the event being
processed before calling this, so the buffer already contains `event`. -/
def detect_anomalies (data_buffer : List AnalyticsEvent) (event : AnalyticsEvent) :
    List Anomaly :=
  let anomalies : List Anomaly := []
  let anomalies :=
    if event.event_type = "api_call" then
      let recent_calls := recentApiCallsByUser data_buffer event.user_id
      if recent_calls > 20 then
        anomalies ++ [{ type := "high_api_usage", user_id := some event.user_id,
                        count := recent_calls, severity := "high" }]
      else anomalies
    else anomalies
  if event.event_type = "error" then
    let recent_errors := recentErrors data_buffer
    if recent_errors > 5 then
      anomalies ++ [{ type := "error_spike", user_id := none,
                      count := recent_errors, severity := "medium" }]
    else anomalies
  else anomalies

/-- The buffer effect of `AnalyticsProcessor.process_event`
(src/analytics-service/main.py line 101): `self.data_buffer.append(event.dict())`. -/
def process_event_buffer (data_buffer : List AnalyticsEvent) (event : AnalyticsEvent) :
    List AnalyticsEvent :=
  data_buffer ++ [event]

/-- The anomaly list returned by an ingest of `event` on a processor whose
buffer is `data_buffer`: `process_event` appends the event to the buffer
and then runs `_detect_anomalies` on the grown buffer. -/
def ingest_anomalies (data_buffer : List AnalyticsEvent) (event : AnalyticsEvent) :
    List Anomaly :=
  detect_anomalies (process_event_buffer data_buffer event) event

/-- Occurrence counts of each key, keys listed in order of first appearance
(the grouping underlying the pandas `groupby(...).size()` /
`value_counts()` calls of `_generate_insights`). -/
def groupCounts [DecidableEq β] (keys : List β) : List (β × Nat) :=
  keys.eraseDups.map (fun k => (k, (keys.filter (fun x => x == k)).length))

/-- Stable insertion into a count-descending list: `x` goes after every entry
with a count at least as large. -/
def insertByCount [DecidableEq β] (x : β × Nat) : List (β × Nat) → List (β × Nat)
  | [] => [x]
  | y :: ys => if y.2 < x.2 then x :: y :: ys else y :: insertByCount x ys

/-- Stable sort by count, descending — the ordering pandas `value_counts()`
presents before the Python code truncates with `[:10]` / `[:5]` (pandas
leaves the order of tied counts unspecified; this model keeps first
appearance order for ties). -/
def sortByCountDesc [DecidableEq β] (l : List (β × Nat)) : List (β × Nat) :=
  l.foldr insertByCount []

/-- The successful payload of `_generate_insights`
(src/analytics-service/main.py lines 174-189). -/
structure Insights where
  usage_patterns : List ((String × Nat) × Nat)
  user_behavior : List ((String × String) × Nat)
  tool_popularity : List (String × Nat)
deriving DecidableEq, Repr

/-- The three possible return shapes of `_generate_insights`: the computed
insight dict, the `Insufficient data for insights` message (buffer of at
most 10 events), or the internal `except` branch's error dict. -/
inductive InsightsOutcome where
  | computed (i : Insights)
  | insufficientData
  | stepError (msg : String)
deriving DecidableEq, Repr

/-- Model of `AnalyticsProcessor._generate_insights`
(src/analytics-service/main.py lines 162-195).  `raises` is the failure
oracle for this step; an exception inside the step is caught by the step's
own `except` branch, which returns an error dict instead of propagating. -/
def generate_insights (raises : Bool) (data_buffer : List AnalyticsEvent) :
    InsightsOutcome :=
  if raises then .stepError "insights step raised"
  else if 10 < data_buffer.length then
    let df := lastN 100 data_buffer
    .computed
      { usage_patterns := groupCounts (df.map (fun e => (e.event_type, e.hour)))
        user_behavior :=
          (sortByCountDesc (groupCounts (df.map (fun e => (e.user_id, e.event_type))))).take 10
        tool_popularity :=
          (sortByCountDesc (groupCounts (df.filterMap (fun e => e.tool_id)))).take 5 }
  else .insufficientData

/-- Failure oracle for the steps of `process_event`: each flag says whether
the corresponding step raises an exception when executed. -/
structure StepFailures where
  append_fails : Bool
  metrics_fails : Bool
  redis_fails : Bool
  insights_fails : Bool
  anomalies_fails : Bool
deriving DecidableEq, Repr

/-- The dict returned by `AnalyticsProcessor.process_event`
(src/analytics-service/main.py lines 115-124).  `insights`/`anomalies` are
`none` when the request aborted through the outer `except` branch (the
returned dict then has no such keys, only `processed: False` and `error`). -/
structure ProcessResult where
  processed : Bool
  insights : Option InsightsOutcome
  anomalies : Option (List Anomaly)
  error : Option String
deriving DecidableEq, Repr

/-- Model of `AnalyticsProcessor.process_event`
(src/analytics-service/main.py lines 97-124).  All five steps run inside a
single `try`: an exception raised by the buffer append, the running-metrics
update or the Redis write propagates to the outer `except` and aborts the
request with `processed: False`.  Only `_generate_insights` and
`_detect_anomalies` catch internally (returning an error dict resp. `[]`),
so only those two steps are individually fail-soft. -/
def process_event (f : StepFailures) (data_buffer : List AnalyticsEvent)
    (event : AnalyticsEvent) : ProcessResult :=
  if f.append_fails then
    { processed := false, insights := none, anomalies := none,
      error := some "append raised" }
  else
    let buffer := process_event_buffer data_buffer event
    if f.metrics_fails then
      { processed := false, insights := none, anomalies := none,
        error := some "metrics update raised" }
    else if f.redis_fails then
      { processed := false, insights := none, anomalies := none,
        error := some "redis write raised" }
    else
      { processed := true,
        insights := some (generate_insights f.insights_fails buffer),
        anomalies := some (if f.anomalies_fails then [] else detect_anomalies buffer event),
        error := none }

/-- A live WebSocket connection of src/analytics-service/main.py: the
`active_connections` entry (keyed by connection id) joined with its
`user_sessions` record (organization scope).  `send_ok` models whether
`send_json` on this transport succeeds. -/
structure OrgConn where
  id : Nat
  organization_id : String
  send_ok : Bool
deriving DecidableEq, Repr

/-- Model of `broadcast_to_organization` (src/analytics-service/main.py
lines 401-408).  Returns the `(connection id, message)` deliveries of the
pass and the registry afterwards.  A send failure is logged and otherwise
ignored: the registry is returned unchanged. -/
def broadcast_to_organization (conns : List OrgConn) (organization_id : String)
    (exclude : Option Nat) (message : String) : List (Nat × String) × List OrgConn :=
  ((conns.filter (fun c =>
      decide (some c.id ≠ exclude) && c.organization_id == organization_id
        && c.send_ok)).map (fun c => (c.id, message)),
   conns)

/-- The buffer trimming step of `background_analytics_processing`
(src/analytics-service/main.py lines 317-319): when the buffer holds more
than 1000 events, only the most recent 1000 are kept. -/
def background_trim (data_buffer : List AnalyticsEvent) : List AnalyticsEvent :=
  if data_buffer.length > 1000 then lastN 1000 data_buffer else data_buffer

end MainService

namespace AppService

/-- A row of the `events` table of src/analytics-service/app.py (columns the
metrics queries read).  `timestamp` is in seconds. -/
structure EventRow where
  event_type : String
  user_id : Option String
  organization_id : Option String
  timestamp : Int
deriving DecidableEq, Repr

/-- A row of the `payments` table (columns the revenue queries read). -/
structure PaymentRow where
  amount : ℚ
  status : String
  timestamp : Int
deriving DecidableEq, Repr

/-- A row of the `subscriptions` table (columns the MRR query reads). -/
structure SubscriptionRow where
  amount : ℚ
  status : String
  billing_cycle : String
deriving DecidableEq, Repr

/-- The SQLite database state read by `calculate_real_time_metrics`:
`tool_usage` only contributes row timestamps to the query. -/
structure Store where
  events : List EventRow
  tool_usage : List Int
  payments : List PaymentRow
  subscriptions : List SubscriptionRow
deriving DecidableEq, Repr

/-- SQL `LIKE '%_api_%'` (src/analytics-service/app.py line 260): some
character precedes an occurrence of `api` and some character follows it. -/
def likeUnderscoreApiUnderscore (s : String) : Bool :=
  let cs := s.data
  (List.range cs.length).any (fun i =>
    decide (0 < i) && decide (i + 3 < cs.length)
      && decide ((cs.drop i).take 3 = ['a', 'p', 'i']))

/-- SQL `LIKE '%_error%'` (src/analytics-service/app.py line 268): some
character precedes an occurrence of `error`. -/
def likeUnderscoreError (s : String) : Bool :=
  let cs := s.data
  (List.range cs.length).any (fun i =>
    decide (0 < i) && decide ((cs.drop i).take 5 = ['e', 'r', 'r', 'o', 'r']))

/-- The rows satisfying `WHERE timestamp > hour_ago` for the error-rate query. -/
def windowEvents (events : List EventRow) (hour_ago : Int) : List EventRow :=
  events.filter (fun e => decide (hour_ago < e.timestamp))

/-- `COUNT(*)` of the error-rate query (src/analytics-service/app.py
lines 266-271): all events of the trailing hour. -/
def totalCount (events : List EventRow) (now : Int) : Nat :=
  (windowEvents events (now - 3600)).length

/-- `COUNT(CASE WHEN event_type LIKE '%_error%' THEN 1 END)` of the
error-rate query: error-category events of the trailing hour. -/
def errorCount (events : List EventRow) (now : Int) : Nat :=
  ((windowEvents events (now - 3600)).filter
    (fun e => likeUnderscoreError e.event_type)).length

/-- The `error_rate` local of `calculate_real_time_metrics`
(src/analytics-service/app.py line 273):
`(result[0] / result[1] * 100) if result[1] > 0 else 0`. -/
def error_rate (events : List EventRow) (now : Int) : ℚ :=
  if 0 < totalCount events now then
    (errorCount events now : ℚ) / (totalCount events now : ℚ) * 100
  else 0

/-- Python banker's rounding (`round`) of a rational to an integer:
half-way values go to the even neighbour. -/
def roundHalfEven (x : ℚ) : ℤ :=
  let f := ⌊x⌋
  let r := x - f
  if r < 1/2 then f
  else if 1/2 < r then f + 1
  else if f % 2 = 0 then f else f + 1

/-- Python `round(x, 2)`. -/
def round2 (x : ℚ) : ℚ :=
  (roundHalfEven (x * 100) : ℚ) / 100

/-- The dict returned by `calculate_real_time_metrics`
(src/analytics-service/app.py lines 309-323). -/
structure MetricsSnapshot where
  timestamp : Int
  active_users : Nat
  api_calls_per_minute : ℚ
  error_rate : ℚ
  cpu_usage : ℚ
  memory_usage : ℚ
  tools_used_last_hour : Nat
  revenue_today : ℚ
  total_revenue : ℚ
  mrr : ℚ
  arr : ℚ
  total_events_last_hour : Nat
  system_health : String
deriving DecidableEq, Repr

/-- Model of `AnalyticsManager.calculate_real_time_metrics`
(src/analytics-service/app.py lines 240-323).  `now` is the call time;
`cpu_usage` and `memory_usage` are the host samples `psutil` returns at
call time (non-deterministic inputs, so parameters here).  Note the code's
`total_events_last_hour` field is in fact the api-calls count, and
`system_health` is computed from the un-rounded `error_rate` local. -/
def calculate_real_time_metrics (store : Store) (now : Int)
    (cpu_usage memory_usage : ℚ) : MetricsSnapshot :=
  let hour_ago := now - 3600
  let day_ago := now - 86400
  let active_users :=
    (((store.events.filter (fun e =>
        decide (hour_ago < e.timestamp) && decide (e.user_id ≠ none))).filterMap
          (fun e => e.user_id)).eraseDups).length
  let api_calls :=
    (store.events.filter (fun e =>
      decide (hour_ago < e.timestamp) && likeUnderscoreApiUnderscore e.event_type)).length
  let api_calls_per_minute : ℚ := (api_calls : ℚ) / 60
  let er := error_rate store.events now
  let tools_used := (store.tool_usage.filter (fun t => decide (hour_ago < t))).length
  let revenue_today :=
    ((store.payments.filter (fun p =>
      decide (day_ago < p.timestamp) && p.status == "completed")).map
        (fun p => p.amount)).sum
  let total_revenue :=
    ((store.payments.filter (fun p => p.status == "completed")).map
      (fun p => p.amount)).sum
  let mrr :=
    ((store.subscriptions.filter (fun s =>
      s.status == "active" && s.billing_cycle == "monthly")).map
        (fun s => s.amount)).sum
  { timestamp := now
    active_users := active_users
    api_calls_per_minute := round2 api_calls_per_minute
    error_rate := round2 er
    cpu_usage := cpu_usage
    memory_usage := memory_usage
    tools_used_last_hour := tools_used
    revenue_today := round2 revenue_today
    total_revenue := round2 total_revenue
    mrr := round2 mrr
    arr := round2 (mrr * 12)
    total_events_last_hour := api_calls
    system_health := if er < 5 ∧ cpu_usage < 80 then "healthy" else "warning" }

/-- A live WebSocket connection of src/analytics-service/app.py (an entry
of the `active_connections` list).  `send_ok` models whether `send_text`
on this transport succeeds. -/
structure WSConn where
  id : Nat
  send_ok : Bool
deriving DecidableEq, Repr

/-- The removal loop of `broadcast_to_clients`: `active_connections.remove(conn)`
for each collected connection, after the send pass. -/
def removeCollected (conns disconnected : List WSConn) : List WSConn :=
  disconnected.foldl (fun acc c => acc.erase c) conns

/-- Model of `AnalyticsManager.broadcast_to_clients`
(src/analytics-service/app.py lines 382-400).  Returns the
`(connection id, message)` deliveries of the pass and the registry
afterwards: failing connections are collected during the send loop and
removed from the registry only once the loop has finished. -/
def broadcast_to_clients (conns : List WSConn) (message : String) :
    List (Nat × String) × List WSConn :=
  if conns = [] then ([], conns)
  else
    let disconnected := conns.filter (fun c => !c.send_ok)
    let delivered := (conns.filter (fun c => c.send_ok)).map (fun c => (c.id, message))
    (delivered, removeCollected conns disconnected)

/-- A Redis value as used by the counter keys: an integer with an optional
time-to-live (`none` = the key never expires). -/
structure RedisEntry where
  value : Int
  ttl : Option Nat
deriving DecidableEq, Repr

/-- The counter keyspace of the Redis cache, as an association list. -/
abbrev Redis := List (String × RedisEntry)

/-- Redis `INCR`: an absent key is created with value 1 and no expiry; an
existing key keeps its time-to-live. -/
def redisIncr (store : Redis) (key : String) : Redis :=
  match List.find? (fun kv => kv.1 == key) store with
  | some _ =>
      store.map (fun kv =>
        if kv.1 == key then (kv.1, ⟨kv.2.value + 1, kv.2.ttl⟩) else kv)
  | none => store ++ [(key, ⟨1, none⟩)]

/-- Redis `EXPIRE`: sets the time-to-live of an existing key; a no-op on an
absent key. -/
def redisExpire (store : Redis) (key : String) (seconds : Nat) : Redis :=
  store.map (fun kv => if kv.1 == key then (kv.1, ⟨kv.2.value, some seconds⟩) else kv)

/-- Redis `GET` restricted to the counter keyspace. -/
def redisGet (store : Redis) (key : String) : Option RedisEntry :=
  (List.find? (fun kv => kv.1 == key) store).map (fun kv => kv.2)

/-- The fields of an ingested event dict that
`update_real_time_counters` reads. -/
structure EventData where
  event_type : String
  user_id : Option String
deriving DecidableEq, Repr

/-- Model of `AnalyticsManager.update_real_time_counters`
(src/analytics-service/app.py lines 369-380): increment the event-type
counter, increment the per-user counter when `user_id` is truthy (Python
truthiness: a present but empty string is falsy), then set a 24h expiry —
on the event-type counter only. -/
def update_real_time_counters (store : Redis) (ev : EventData) : Redis :=
  let store := redisIncr store ("counter:event:" ++ ev.event_type)
  let store :=
    match ev.user_id with
    | some uid => if uid = "" then store else redisIncr store ("counter:user:" ++ uid)
    | none => store
  redisExpire store ("counter:event:" ++ ev.event_type) 86400

end AppService

namespace MainService

/-- A sample `api_call` event by user `A`. -/
def apiEventA : AnalyticsEvent :=
  { event_type := "api_call", user_id := "A", organization_id := "org",
    tool_id := none, hour := 0, data := [] }

/-- A sample `error` event by user `A`. -/
def errorEventA : AnalyticsEvent :=
  { event_type := "error", user_id := "A", organization_id := "org",
    tool_id := none, hour := 0, data := [] }

/-- A sample `page_view` event by user `A`. -/
def pageViewEventA : AnalyticsEvent :=
  { event_type := "page_view", user_id := "A", organization_id := "org",
    tool_id := none, hour := 0, data := [] }

end MainService

namespace AppService

/-- The empty database. -/
def emptyStore : Store := ⟨[], [], [], []⟩

/-- A sample stored event whose type matches the `LIKE '%_error%'` pattern. -/
def xErrorRow : EventRow :=
  { event_type := "tool_error", user_id := some "A", organization_id := none,
    timestamp := 5 }

/-- A sample stored event whose type matches neither `LIKE` pattern. -/
def okRow : EventRow :=
  { event_type := "page_view", user_id := some "B", organization_id := none,
    timestamp := 5 }

end AppService

namespace MainService

/-- Auxiliary: folding the ingestion append over a list of events grows the
buffer by exactly the number of events. -/
theorem foldl_process_event_buffer_length (es acc : List AnalyticsEvent) :
    (List.foldl process_event_buffer acc es).length = acc.length + es.length := by
  induction es generalizing acc with
  | nil => simp
  | cons e es ih =>
      simp only [List.foldl_cons, ih, process_event_buffer, List.length_append,
        List.length_cons, List.length_nil]
      omega

/-- C3 is refuted as stated: ingestion itself only appends and never trims,
so after 1001 ingest operations starting from an empty buffer (and before
any background-processing pass) the Event Buffer holds 1001 entries,
exceeding the 1000-entry cap. -/
theorem buffer_cap_counterexample :
    1000 < (List.foldl process_event_buffer [] (List.replicate 1001 apiEventA)).length := by
  rw [foldl_process_event_buffer_length]
  simp only [List.length_nil, List.length_replicate]
  omega

/-- C3 (amended): the 1000-entry cap is enforced by the periodic
background-processing task, not by the ingest path: each background pass
leaves the buffer with `min (size) 1000` entries (hence never more than
1000 immediately after a pass), and what it keeps is a suffix of the
buffer, i.e. the oldest entries are the ones dropped (FIFO). -/
theorem buffer_trim_amended (data_buffer : List AnalyticsEvent) :
    (background_trim data_buffer).length ≤ 1000 ∧
    (background_trim data_buffer).length = min data_buffer.length 1000 ∧
    (background_trim data_buffer).IsSuffix data_buffer := by
  unfold background_trim lastN
  by_cases h : data_buffer.length > 1000
  · refine ⟨?_, ?_, ?_⟩
    · simp only [h, if_true, List.length_drop]
      omega
    · simp only [h, if_true, List.length_drop]
      omega
    · simp only [h, if_true]
      exact ⟨data_buffer.take (data_buffer.length - 1000),
        List.take_append_drop _ data_buffer⟩
  · refine ⟨?_, ?_, ?_⟩
    · simp only [h, if_false]
      omega
    · simp only [h, if_false]
      omega
    · simp only [h, if_false]
      exact List.suffix_refl data_buffer

end MainService

namespace AppService

/-- C1: the `error_rate` computed by `calculate_real_time_metrics` is zero
on an empty 1h window (no division-by-zero failure), equals the ratio of
error-category events to total events in the window as a percentage when
the window is non-empty, always lies in `[0, 100]`, and is zero when the
window contains no error events. -/
theorem error_rate_bounds (events : List EventRow) (now : Int) :
    (totalCount events now = 0 → error_rate events now = 0) ∧
    (0 < totalCount events now →
      error_rate events now * (totalCount events now : ℚ) =
        (errorCount events now : ℚ) * 100) ∧
    0 ≤ error_rate events now ∧ error_rate events now ≤ 100 ∧
    (errorCount events now = 0 → error_rate events now = 0) := by
  have hle : errorCount events now ≤ totalCount events now :=
    List.length_filter_le _ _
  unfold error_rate
  by_cases ht : 0 < totalCount events now
  · have htQ : (0 : ℚ) < (totalCount events now : ℚ) := by exact_mod_cast ht
    have hleQ : (errorCount events now : ℚ) ≤ (totalCount events now : ℚ) := by
      exact_mod_cast hle
    refine ⟨fun h0 => absurd h0 (by omega), fun _ => ?_, ?_, ?_, fun he => ?_⟩
    · simp only [ht, if_true]
      field_simp
    · simp only [ht, if_true]
      positivity
    · simp only [ht, if_true]
      rw [div_mul_eq_mul_div, div_le_iff₀ htQ]
      linarith
    · simp only [ht, if_true, he]
      simp
  · refine ⟨fun _ => ?_, fun h0 => absurd h0 ht, ?_, ?_, fun _ => ?_⟩ <;>
      simp [ht]

/-- Witness for C1 at concrete inputs: a window holding one error-category
event among two events has `error_rate * 2 = 1 * 100` (i.e. 50%), and an
empty store yields `error_rate = 0`. -/
theorem error_rate_bounds_witness :
    error_rate [xErrorRow, okRow] 10 * (totalCount [xErrorRow, okRow] 10 : ℚ) =
      (errorCount [xErrorRow, okRow] 10 : ℚ) * 100 ∧
    error_rate [] 0 = 0 :=
  ⟨(error_rate_bounds [xErrorRow, okRow] 10).2.1 (by decide),
   (error_rate_bounds [] 0).1 rfl⟩

/-- C7: a snapshot's `system_health` is `healthy` exactly when the computed
`error_rate` is below 5 and the sampled `cpu_usage` below 80, is `warning`
otherwise, and is a pure function of those two values: any two computations
agreeing on `error_rate` and `cpu_usage` agree on `system_health`. -/
theorem health_pure_function (store : Store) (now : Int) (cpu mem : ℚ) :
    ((calculate_real_time_metrics store now cpu mem).system_health = "healthy" ↔
      (error_rate store.events now < 5 ∧ cpu < 80)) ∧
    ((calculate_real_time_metrics store now cpu mem).system_health = "warning" ↔
      ¬(error_rate store.events now < 5 ∧ cpu < 80)) ∧
    (∀ (store2 : Store) (now2 : Int) (cpu2 mem2 : ℚ),
      error_rate store2.events now2 = error_rate store.events now → cpu2 = cpu →
      (calculate_real_time_metrics store2 now2 cpu2 mem2).system_health =
        (calculate_real_time_metrics store now cpu mem).system_health) := by
  have hh : ∀ (st : Store) (t : Int) (c m : ℚ),
      (calculate_real_time_metrics st t c m).system_health =
        if error_rate st.events t < 5 ∧ c < 80 then "healthy" else "warning" := by
    intro st t c m
    rfl
  refine ⟨?_, ?_, ?_⟩
  · rw [hh]
    by_cases h : error_rate store.events now < 5 ∧ cpu < 80 <;> simp [h]
  · rw [hh]
    by_cases h : error_rate store.events now < 5 ∧ cpu < 80 <;> simp [h]
  · intro store2 now2 cpu2 mem2 her hcpu
    rw [hh, hh, her, hcpu]

/-- Witness for C7: on the empty store with a cpu sample of 10 the health is
`healthy`; raising only the cpu sample to 90 flips it to `warning`. -/
theorem health_pure_function_witness :
    (calculate_real_time_metrics emptyStore 0 10 50).system_health = "healthy" ∧
    (calculate_real_time_metrics emptyStore 0 90 50).system_health = "warning" :=
  ⟨(health_pure_function emptyStore 0 10 50).1.mpr (by decide),
   (health_pure_function emptyStore 0 90 50).2.1.mpr (by decide)⟩

/-- C9 is refuted as stated: two aggregator runs over the same store and
call time, differing only in the host cpu sample (10 versus 90), disagree
on the `system_health` field — a field that is neither the timestamp nor
one of the host-sampled fields (`cpu_usage`, `memory_usage`), so the two
snapshots are not identical in every other field. -/
theorem snapshot_determinism_counterexample :
    (calculate_real_time_metrics emptyStore 0 10 50).system_health = "healthy" ∧
    (calculate_real_time_metrics emptyStore 0 90 50).system_health = "warning" ∧
    (calculate_real_time_metrics emptyStore 0 10 50).system_health ≠
      (calculate_real_time_metrics emptyStore 0 90 50).system_health := by
  decide

/-- C9 (amended): two aggregator runs over the same store contents and call
time agree on every field computed from the Event Store — and on the
timestamp — whatever the two host samples are; only the host-sampled
`cpu_usage`/`memory_usage` fields and the `system_health` field derived
from the sampled cpu may differ. -/
theorem snapshot_determinism_amended (store : Store) (now : Int)
    (cpu1 mem1 cpu2 mem2 : ℚ) :
    (calculate_real_time_metrics store now cpu1 mem1).timestamp =
      (calculate_real_time_metrics store now cpu2 mem2).timestamp ∧
    (calculate_real_time_metrics store now cpu1 mem1).active_users =
      (calculate_real_time_metrics store now cpu2 mem2).active_users ∧
    (calculate_real_time_metrics store now cpu1 mem1).api_calls_per_minute =
      (calculate_real_time_metrics store now cpu2 mem2).api_calls_per_minute ∧
    (calculate_real_time_metrics store now cpu1 mem1).error_rate =
      (calculate_real_time_metrics store now cpu2 mem2).error_rate ∧
    (calculate_real_time_metrics store now cpu1 mem1).tools_used_last_hour =
      (calculate_real_time_metrics store now cpu2 mem2).tools_used_last_hour ∧
    (calculate_real_time_metrics store now cpu1 mem1).revenue_today =
      (calculate_real_time_metrics store now cpu2 mem2).revenue_today ∧
    (calculate_real_time_metrics store now cpu1 mem1).total_revenue =
      (calculate_real_time_metrics store now cpu2 mem2).total_revenue ∧
    (calculate_real_time_metrics store now cpu1 mem1).mrr =
      (calculate_real_time_metrics store now cpu2 mem2).mrr ∧
    (calculate_real_time_metrics store now cpu1 mem1).arr =
      (calculate_real_time_metrics store now cpu2 mem2).arr ∧
    (calculate_real_time_metrics store now cpu1 mem1).total_events_last_hour =
      (calculate_real_time_metrics store now cpu2 mem2).total_events_last_hour :=
  ⟨rfl, rfl, rfl, rfl, rfl, rfl, rfl, rfl, rfl, rfl⟩

/-- C6: evaluation of `update_real_time_counters` at the failing input — an
event with `event_type = "page_view"` and `user_id = "A"` on an empty
counter cache.  The event-type counter gets the 24h expiry, but the
per-user counter is created with no time-to-live and is never expired: the
code's own `Set expiry for counters (24 hours)` comment notwithstanding,
only one of the two incremented counter keys has a bounded lifetime. -/
theorem counter_ttl_eval :
    redisGet (update_real_time_counters [] ⟨"page_view", some "A"⟩)
      "counter:user:A" = some ⟨1, none⟩ ∧
    redisGet (update_real_time_counters [] ⟨"page_view", some "A"⟩)
      "counter:event:page_view" = some ⟨1, some 86400⟩ := by
  decide

end AppService

namespace MainService

/-- Auxiliary: on an `api_call` event, `_detect_anomalies` reduces to the
high-api-usage check alone. -/
theorem detect_anomalies_api (data_buffer : List AnalyticsEvent)
    (event : AnalyticsEvent) (h : event.event_type = "api_call") :
    detect_anomalies data_buffer event =
      if 20 < recentApiCallsByUser data_buffer event.user_id then
        [{ type := "high_api_usage", user_id := some event.user_id,
           count := recentApiCallsByUser data_buffer event.user_id,
           severity := "high" }]
      else [] := by
  have hne : ¬(("api_call" : String) = "error") := by decide
  by_cases hc : 20 < recentApiCallsByUser data_buffer event.user_id <;>
    simp [detect_anomalies, h, hne, hc]

/-- Auxiliary: on an `error` event, `_detect_anomalies` reduces to the
error-spike check alone. -/
theorem detect_anomalies_error (data_buffer : List AnalyticsEvent)
    (event : AnalyticsEvent) (h : event.event_type = "error") :
    detect_anomalies data_buffer event =
      if 5 < recentErrors data_buffer then
        [{ type := "error_spike", user_id := none,
           count := recentErrors data_buffer, severity := "medium" }]
      else [] := by
  have hne : ¬(("error" : String) = "api_call") := by decide
  by_cases hc : 5 < recentErrors data_buffer <;>
    simp [detect_anomalies, h, hne, hc]

/-- Auxiliary: on an event of any other type, `_detect_anomalies` returns
the empty anomaly list. -/
theorem detect_anomalies_other (data_buffer : List AnalyticsEvent)
    (event : AnalyticsEvent) (h1 : event.event_type ≠ "api_call")
    (h2 : event.event_type ≠ "error") :
    detect_anomalies data_buffer event = [] := by
  simp only [detect_anomalies, if_neg h1, if_neg h2]

/-- C2: ingesting an `api_call` event that brings the count of `api_call`
events from the same user within the trailing 50 buffered events to
exactly 21 yields an anomaly list containing
`{type: high_api_usage, user_id, count: 21, severity: high}`; whenever that
trailing count is 20 or fewer, no `high_api_usage` anomaly is emitted. -/
theorem high_api_usage_threshold (data_buffer : List AnalyticsEvent)
    (event : AnalyticsEvent) :
    (event.event_type = "api_call" →
      recentApiCallsByUser (process_event_buffer data_buffer event) event.user_id = 21 →
      ({ type := "high_api_usage", user_id := some event.user_id, count := 21,
         severity := "high" } : Anomaly) ∈ ingest_anomalies data_buffer event) ∧
    (recentApiCallsByUser (process_event_buffer data_buffer event) event.user_id ≤ 20 →
      ∀ a ∈ ingest_anomalies data_buffer event, a.type ≠ "high_api_usage") := by
  constructor
  · intro htype hcount
    rw [ingest_anomalies, detect_anomalies_api _ _ htype, hcount]
    simp
  · intro hle a ha
    rw [ingest_anomalies] at ha
    by_cases h1 : event.event_type = "api_call"
    · rw [detect_anomalies_api _ _ h1, if_neg (by omega)] at ha
      simp at ha
    · by_cases h2 : event.event_type = "error"
      · rw [detect_anomalies_error _ _ h2] at ha
        by_cases h5 : 5 < recentErrors (process_event_buffer data_buffer event)
        · rw [if_pos h5] at ha
          simp only [List.mem_singleton] at ha
          rw [ha]
          show ¬(("error_spike" : String) = "high_api_usage")
          decide
        · rw [if_neg h5] at ha
          simp at ha
      · rw [detect_anomalies_other _ _ h1 h2] at ha
        simp at ha

/-- Witness for C2, the spec's scenario: 21 consecutive `api_call` ingests
by user `A`; the 21st returns the `high_api_usage` anomaly with count 21. -/
theorem high_api_usage_threshold_witness :
    ({ type := "high_api_usage", user_id := some "A", count := 21,
       severity := "high" } : Anomaly) ∈
      ingest_anomalies (List.replicate 20 apiEventA) apiEventA :=
  (high_api_usage_threshold (List.replicate 20 apiEventA) apiEventA).1 rfl (by decide)

/-- C8: ingesting an `error` event that brings the count of error events
within the trailing 20 buffered events to exactly 6 yields an anomaly list
containing an `error_spike` anomaly of severity `medium`; whenever that
trailing count is 5 or fewer, no `error_spike` anomaly is emitted. -/
theorem error_spike_threshold (data_buffer : List AnalyticsEvent)
    (event : AnalyticsEvent) :
    (event.event_type = "error" →
      recentErrors (process_event_buffer data_buffer event) = 6 →
      ({ type := "error_spike", user_id := none, count := 6,
         severity := "medium" } : Anomaly) ∈ ingest_anomalies data_buffer event) ∧
    (recentErrors (process_event_buffer data_buffer event) ≤ 5 →
      ∀ a ∈ ingest_anomalies data_buffer event, a.type ≠ "error_spike") := by
  constructor
  · intro htype hcount
    rw [ingest_anomalies, detect_anomalies_error _ _ htype, hcount]
    simp
  · intro hle a ha
    rw [ingest_anomalies] at ha
    by_cases h1 : event.event_type = "error"
    · rw [detect_anomalies_error _ _ h1, if_neg (by omega)] at ha
      simp at ha
    · by_cases h2 : event.event_type = "api_call"
      · rw [detect_anomalies_api _ _ h2] at ha
        by_cases h20 : 20 < recentApiCallsByUser (process_event_buffer data_buffer event)
            event.user_id
        · rw [if_pos h20] at ha
          simp only [List.mem_singleton] at ha
          rw [ha]
          show ¬(("high_api_usage" : String) = "error_spike")
          decide
        · rw [if_neg h20] at ha
          simp at ha
      · rw [detect_anomalies_other _ _ h2 h1] at ha
        simp at ha

/-- Witness for C8: 6 consecutive `error` ingests; the 6th returns the
`error_spike` anomaly with count 6 and severity `medium`. -/
theorem error_spike_threshold_witness :
    ({ type := "error_spike", user_id := none, count := 6,
       severity := "medium" } : Anomaly) ∈
      ingest_anomalies (List.replicate 5 errorEventA) errorEventA :=
  (error_spike_threshold (List.replicate 5 errorEventA) errorEventA).1 rfl (by decide)

/-- C10: the anomaly heuristics are gated on the ingested event's own type:
a `high_api_usage` anomaly can only come from ingesting an `api_call`
event, an `error_spike` anomaly only from ingesting an `error` event, and
ingesting an event of any other type yields an empty anomaly list no
matter what the trailing buffer window contains. -/
theorem anomaly_gating (data_buffer : List AnalyticsEvent)
    (event : AnalyticsEvent) :
    (∀ a ∈ ingest_anomalies data_buffer event,
      a.type = "high_api_usage" → event.event_type = "api_call") ∧
    (∀ a ∈ ingest_anomalies data_buffer event,
      a.type = "error_spike" → event.event_type = "error") ∧
    (event.event_type ≠ "api_call" → event.event_type ≠ "error" →
      ingest_anomalies data_buffer event = []) := by
  have main : ∀ a ∈ ingest_anomalies data_buffer event,
      (a.type = "high_api_usage" → event.event_type = "api_call") ∧
      (a.type = "error_spike" → event.event_type = "error") := by
    intro a ha
    rw [ingest_anomalies] at ha
    by_cases h1 : event.event_type = "api_call"
    · rw [detect_anomalies_api _ _ h1] at ha
      by_cases h20 : 20 < recentApiCallsByUser (process_event_buffer data_buffer event)
          event.user_id
      · rw [if_pos h20] at ha
        simp only [List.mem_singleton] at ha
        rw [ha]
        exact ⟨fun _ => h1, fun hs =>
          absurd hs (by show ¬(("high_api_usage" : String) = "error_spike"); decide)⟩
      · rw [if_neg h20] at ha
        simp at ha
    · by_cases h2 : event.event_type = "error"
      · rw [detect_anomalies_error _ _ h2] at ha
        by_cases h5 : 5 < recentErrors (process_event_buffer data_buffer event)
        · rw [if_pos h5] at ha
          simp only [List.mem_singleton] at ha
          rw [ha]
          exact ⟨fun hs =>
          absurd hs (by show ¬(("error_spike" : String) = "high_api_usage"); decide),
          fun _ => h2⟩
        · rw [if_neg h5] at ha
          simp at ha
      · rw [detect_anomalies_other _ _ h1 h2] at ha
        simp at ha
  refine ⟨fun a ha => (main a ha).1, fun a ha => (main a ha).2, fun h1 h2 => ?_⟩
  rw [ingest_anomalies, detect_anomalies_other _ _ h1 h2]

/-- Witness for C10: ingesting a `page_view` event into a buffer holding 49
`api_call` events by the same user yields no anomaly at all. -/
theorem anomaly_gating_witness :
    ingest_anomalies (List.replicate 49 apiEventA) pageViewEventA = [] :=
  (anomaly_gating (List.replicate 49 apiEventA) pageViewEventA).2.2
    (by decide) (by decide)

/-- C5 is refuted as stated: an exception in the running-counter update step
alone (`metrics_fails`) makes the whole request abort through the single
outer `except` of `process_event` — the result is `processed: False` with
no insights and no anomalies, so the later steps did not contribute their
outputs as the claim requires. -/
theorem fail_soft_counterexample :
    (process_event ⟨false, true, false, false, false⟩ [] apiEventA).processed = false ∧
    (process_event ⟨false, true, false, false, false⟩ [] apiEventA).insights = none ∧
    (process_event ⟨false, true, false, false, false⟩ [] apiEventA).anomalies = none := by
  decide

/-- C5 (amended): only insight derivation and anomaly detection are
individually fail-soft — each catches internally, so its failure downgrades
only its own contribution while the other still contributes and the result
stays `processed: True`; an exception in the buffer append, the
running-counter update or the Redis write instead aborts the whole request
through the single outer exception handler, yielding `processed: False`
with neither insights nor anomalies. -/
theorem fail_soft_amended (f : StepFailures) (data_buffer : List AnalyticsEvent)
    (event : AnalyticsEvent) :
    (f.append_fails = false → f.metrics_fails = false → f.redis_fails = false →
      (process_event f data_buffer event).processed = true ∧
      (process_event f data_buffer event).insights =
        some (generate_insights f.insights_fails (process_event_buffer data_buffer event)) ∧
      (process_event f data_buffer event).anomalies =
        some (if f.anomalies_fails then []
              else detect_anomalies (process_event_buffer data_buffer event) event)) ∧
    ((f.append_fails || f.metrics_fails || f.redis_fails) = true →
      (process_event f data_buffer event).processed = false ∧
      (process_event f data_buffer event).insights = none ∧
      (process_event f data_buffer event).anomalies = none) := by
  obtain ⟨a, m, r, i, an⟩ := f
  cases a <;> cases m <;> cases r <;>
    simp [process_event]

/-- Witness for C5 (amended): with only the insights step failing, the
result is still `processed: True` and the anomaly step contributes; with
the append step failing, the request aborts. -/
theorem fail_soft_amended_witness :
    ((process_event ⟨false, false, false, true, false⟩ [] apiEventA).processed = true ∧
      (process_event ⟨false, false, false, true, false⟩ [] apiEventA).insights =
        some (generate_insights true (process_event_buffer [] apiEventA)) ∧
      (process_event ⟨false, false, false, true, false⟩ [] apiEventA).anomalies =
        some (if false then []
              else detect_anomalies (process_event_buffer [] apiEventA) apiEventA)) ∧
    ((process_event ⟨true, false, false, false, false⟩ [] apiEventA).processed = false ∧
      (process_event ⟨true, false, false, false, false⟩ [] apiEventA).insights = none ∧
      (process_event ⟨true, false, false, false, false⟩ [] apiEventA).anomalies = none) :=
  ⟨(fail_soft_amended ⟨false, false, false, true, false⟩ [] apiEventA).1 rfl rfl rfl,
   (fail_soft_amended ⟨true, false, false, false, false⟩ [] apiEventA).2 rfl⟩

end MainService

/-- Auxiliary: with no duplicates in the starting list, erasing each element
of a collection in turn is the same as filtering the collection out. -/
theorem foldl_erase_eq_filter {α : Type} [DecidableEq α] (s : List α) :
    ∀ (l : List α), l.Nodup →
      s.foldl (fun acc c => acc.erase c) l = l.filter (fun x => decide (x ∉ s)) := by
  induction s with
  | nil => intro l _; simp
  | cons c s ih =>
      intro l h
      simp only [List.foldl_cons]
      rw [ih (l.erase c) (h.erase c), List.Nodup.erase_eq_filter h c,
        List.filter_filter]
      apply List.filter_congr
      intro x _
      by_cases hxc : x = c <;> by_cases hxs : x ∈ s <;>
        simp [hxc, hxs]

/-- Auxiliary: the registry left by a `broadcast_to_clients` pass is exactly
the connections whose send succeeded (assuming distinct registry entries). -/
theorem broadcast_registry_eq (conns : List AppService.WSConn)
    (h : conns.Nodup) (message : String) :
    (AppService.broadcast_to_clients conns message).2 =
      conns.filter (fun c => c.send_ok) := by
  unfold AppService.broadcast_to_clients AppService.removeCollected
  by_cases hc : conns = []
  · simp [hc]
  · simp only [hc, if_false]
    rw [foldl_erase_eq_filter _ conns h]
    apply List.filter_congr
    intro c hcm
    cases hso : c.send_ok <;> simp [List.mem_filter, hcm, hso]

/-- Auxiliary: every delivery of a `broadcast_to_clients` pass goes to a
registered connection whose send succeeds. -/
theorem broadcast_delivered_mem (l : List AppService.WSConn) (m : String) (x : Nat)
    (hx : (x, m) ∈ (AppService.broadcast_to_clients l m).1) :
    ∃ c' ∈ l, c'.send_ok = true ∧ c'.id = x := by
  by_cases hl : l = []
  · subst hl
    simp [AppService.broadcast_to_clients] at hx
  · unfold AppService.broadcast_to_clients at hx
    simp only [hl, if_false] at hx
    obtain ⟨c', hmem, heq⟩ := List.mem_map.mp hx
    exact ⟨c', (List.mem_filter.mp hmem).1, (List.mem_filter.mp hmem).2,
      congrArg Prod.fst heq⟩

/-- C4 (amended): in app.py's `broadcast_to_clients`, every connection whose
send succeeds receives the message in the same pass regardless of other
connections' failures, a failing connection is no longer registered once
the pass completes and receives nothing from the following broadcast; in
main.py's `broadcast_to_organization`, by contrast, a send failure is only
logged — the registry is returned unchanged, so the failing connection
stays registered (matching connections still all receive the message). -/
theorem broadcast_isolation_amended (conns : List AppService.WSConn)
    (message message2 : String)
    (hids : (conns.map (fun c => c.id)).Nodup)
    (c : AppService.WSConn) (hc : c ∈ conns) :
    (c.send_ok = true →
      (c.id, message) ∈ (AppService.broadcast_to_clients conns message).1) ∧
    (c.send_ok = false →
      c ∉ (AppService.broadcast_to_clients conns message).2 ∧
      (c.id, message2) ∉
        (AppService.broadcast_to_clients
          (AppService.broadcast_to_clients conns message).2 message2).1) ∧
    (∀ (mconns : List MainService.OrgConn) (org : String)
        (d : MainService.OrgConn), d ∈ mconns →
      (MainService.broadcast_to_organization mconns org none message).2 = mconns ∧
      (d.organization_id = org → d.send_ok = true →
        (d.id, message) ∈
          (MainService.broadcast_to_organization mconns org none message).1)) := by
  have hnodup : conns.Nodup := hids.of_map
  have hreg : (AppService.broadcast_to_clients conns message).2 =
      conns.filter (fun c => c.send_ok) := broadcast_registry_eq conns hnodup message
  have hne : conns ≠ [] := List.ne_nil_of_mem hc
  refine ⟨?_, ?_, ?_⟩
  · intro hso
    unfold AppService.broadcast_to_clients
    simp only [hne, if_false]
    exact List.mem_map.mpr ⟨c, List.mem_filter.mpr ⟨hc, hso⟩, rfl⟩
  · intro hso
    constructor
    · rw [hreg]
      intro hmem
      have := (List.mem_filter.mp hmem).2
      rw [hso] at this
      exact Bool.false_ne_true this
    · rw [hreg]
      intro hmem
      obtain ⟨c', hc'f, hc'so, hideq⟩ := broadcast_delivered_mem _ _ _ hmem
      have hc'conns : c' ∈ conns := (List.mem_filter.mp hc'f).1
      have : c' = c := List.inj_on_of_nodup_map hids hc'conns hc hideq
      rw [this, hso] at hc'so
      exact Bool.false_ne_true hc'so
  · intro mconns org d hd
    refine ⟨rfl, fun horg hso => ?_⟩
    unfold MainService.broadcast_to_organization
    refine List.mem_map.mpr ⟨d, List.mem_filter.mpr ⟨hd, ?_⟩, rfl⟩
    simp [horg, hso]

/-- C4 is refuted as stated (for main.py's broadcaster): after a broadcast
pass in which the send to connection 1 fails and connection 2 receives the
message, connection 1 is still in the registry — `broadcast_to_organization`
only logs send failures and never removes the connection. -/
theorem broadcast_removal_counterexample :
    (⟨1, "org", false⟩ : MainService.OrgConn) ∈
      (MainService.broadcast_to_organization
        [⟨1, "org", false⟩, ⟨2, "org", true⟩] "org" none "metrics_update").2 ∧
    (2, "metrics_update") ∈
      (MainService.broadcast_to_organization
        [⟨1, "org", false⟩, ⟨2, "org", true⟩] "org" none "metrics_update").1 := by
  decide

/-- Witness for C4 (amended) on concrete registries: connection 2 (whose
send succeeds) receives the message, and failing connection 1 is no longer
registered after the pass. -/
theorem broadcast_isolation_amended_witness :
    ((2 : Nat), "m") ∈
      (AppService.broadcast_to_clients [⟨1, false⟩, ⟨2, true⟩] "m").1 ∧
    (⟨1, false⟩ : AppService.WSConn) ∉
      (AppService.broadcast_to_clients [⟨1, false⟩, ⟨2, true⟩] "m").2 :=
  ⟨(broadcast_isolation_amended [⟨1, false⟩, ⟨2, true⟩] "m" "m2" (by decide)
      ⟨2, true⟩ (by decide)).1 rfl,
   ((broadcast_isolation_amended [⟨1, false⟩, ⟨2, true⟩] "m" "m2" (by decide)
      ⟨1, false⟩ (by decide)).2.1 rfl).1⟩

end ToolVerse
